import Mathlib

/-
Verification of the benchmark aggregator of `solana-grpc-showcase`
(server/services/benchmark_service.go).

The Go code is shallowly embedded: machine integers uint64/uint32 are
natural numbers reduced modulo `U64`/`U32` wherever the Go code can wrap;
the external world (base58 parsing of the solana-go library, blockchain
RPC calls, wall-clock measurements) is passed in explicitly as function
parameters, so every definition is a pure, executable function of the
request and of that environment.
-/

namespace SolanaGrpcShowcase

/-- Modulus of Go's `uint64`. -/
def U64 : Nat := 2 ^ 64

/-- Modulus of Go's `uint32`. -/
def U32 : Nat := 2 ^ 32

/-- Shape of the proto messages `AccountBenchmark`, `TransactionBenchmark`
and `BlockBenchmark` (identical field lists); the spec calls this shape
`ResourceBenchmark`.  Proto3 zero values are all-zero. -/
structure ResourceBenchmark where
  avgResponseTimeMs : Nat := 0
  minResponseTimeMs : Nat := 0
  maxResponseTimeMs : Nat := 0
  successfulRequests : Nat := 0
  failedRequests : Nat := 0
deriving Repr, DecidableEq

/-- Outcome of one sampler attempt (one (iteration, target) pair):
the target fails base58 parsing (no network call is made), or the network
call errors, or the call succeeds with an elapsed-milliseconds measurement
(already reduced mod `U64`, as Go stores it in a `uint64`). -/
inductive SampleOutcome where
  | malformed
  | callError
  | success (elapsedMs : Nat)
deriving Repr, DecidableEq

/-- The four local accumulator variables of each `run*Benchmark` helper:
`totalTime`, `minTime`, `maxTime` are `uint64`, `successCount` is `uint32`. -/
structure Accum where
  totalTime : Nat
  minTime : Nat
  maxTime : Nat
  successCount : Nat
deriving Repr, DecidableEq

/-- Initial accumulator: `totalTime = 0`, `minTime = ^uint64(0)` (the
max-uint64 sentinel), `maxTime = 0`, `successCount = 0`. -/
def accumInit : Accum :=
  { totalTime := 0, minTime := U64 - 1, maxTime := 0, successCount := 0 }

/-- One iteration of the running-minimum update
`if t < minTime { minTime = t }`. -/
def minStep (m v : Nat) : Nat := if v < m then v else m

/-- One iteration of the running-maximum update
`if t > maxTime { maxTime = t }`. -/
def maxStep (m v : Nat) : Nat := if v > m then v else m

/-- The body of the sampler loop: a failed attempt (malformed target or
call error) leaves the accumulator unchanged; a successful attempt adds
its elapsed time to `totalTime` (uint64 wrapping addition), increments
`successCount` (uint32 wrapping), and updates the running min and max. -/
def accumStep (acc : Accum) (o : SampleOutcome) : Accum :=
  match o with
  | .success t =>
      let t := t % U64
      { totalTime := (acc.totalTime + t) % U64
        minTime := minStep acc.minTime t
        maxTime := maxStep acc.maxTime t
        successCount := (acc.successCount + 1) % U32 }
  | _ => acc

/-- The whole sampler loop, as a fold of `accumStep` over the attempt
outcomes in program order. -/
def runAccum (os : List SampleOutcome) : Accum := os.foldl accumStep accumInit

/-- The elapsed times of the successful attempts, in order. -/
def successValues (os : List SampleOutcome) : List Nat :=
  os.filterMap fun o => match o with | .success t => some (t % U64) | _ => none

/-- The `if successCount > 0 { ... }` write-back at the end of each
`run*Benchmark` helper: only when at least one attempt succeeded are the
statistics copied into the result message, with
`FailedRequests = uint32(targetCount*iterations) - successCount`
(uint32 wrapping subtraction); otherwise the result message is left
untouched. -/
def writeBack (attempts : Nat) (acc : Accum) (result : ResourceBenchmark) :
    ResourceBenchmark :=
  if acc.successCount > 0 then
    { avgResponseTimeMs := acc.totalTime / acc.successCount
      minResponseTimeMs := acc.minTime
      maxResponseTimeMs := acc.maxTime
      successfulRequests := acc.successCount
      failedRequests := (attempts % U32 + (U32 - acc.successCount % U32)) % U32 }
  else result

/-- The (iteration, target index, target) triples visited by the nested
loop `for i := 0; i < iterations; i++ { for k, a := range targets }`,
in program order. -/
def attemptList (targets : List α) : Nat → List (Nat × Nat × α)
  | 0 => []
  | n + 1 => attemptList targets n ++ targets.enum.map fun p => (n, p.1, p.2)

/-! ### The two unary lookup RPCs used by the samplers -/

/-- gRPC status codes produced by this service. -/
inductive GrpcCode where
  | invalidArgument
  | internal
deriving Repr, DecidableEq

/-- The fields of a solana-go account lookup result that `GetAccountInfo`
reads (`accountInfo.Value`). -/
structure AccountValue where
  data : List Nat
  owner : String
  lamports : Nat
  executable : Bool
  rentEpoch : Nat
deriving Repr, DecidableEq

/-- proto message `AccountInfoRequest` (fields used by the service). -/
structure AccountInfoRequest where
  pubkey : String
  commitment : String
  encodingBinary : Bool
deriving Repr, DecidableEq

/-- proto message `AccountInfoResponse`. -/
structure AccountInfoResponse where
  pubkey : String
  data : List Nat
  owner : String
  lamports : Nat
  executable : Bool
  rentEpoch : Nat
  responseTimeMs : Nat
deriving Repr, DecidableEq

/-- `BenchmarkService.GetAccountInfo`: the pubkey string is parsed with
`solana.PublicKeyFromBase58` (modelled by the predicate `parse`: whether
the string is well-formed); on parse failure the call returns
`InvalidArgument` without touching the blockchain RPC.  Otherwise the
blockchain RPC is consulted (`rpcResult`; `none` models a transport
error, mapped to `Internal`) and on success the response echoes the
request's pubkey and carries the elapsed milliseconds as a `uint64`.
The second component records whether the blockchain RPC was called. -/
def GetAccountInfo (parse : String → Bool) (rpcResult : Option AccountValue)
    (elapsedMs : Nat) (req : AccountInfoRequest) :
    Except GrpcCode AccountInfoResponse × Bool :=
  if parse req.pubkey then
    match rpcResult with
    | none => (.error .internal, true)
    | some v =>
        (.ok { pubkey := req.pubkey
               data := v.data
               owner := v.owner
               lamports := v.lamports
               executable := v.executable
               rentEpoch := v.rentEpoch
               responseTimeMs := elapsedMs % U64 }, true)
  else (.error .invalidArgument, false)

/-- The fields of a solana-go transaction lookup result that
`GetTransaction` reads. -/
structure TxValue where
  slot : Nat
  txData : String
  metaErrIsNil : Bool
deriving Repr, DecidableEq

/-- proto message `TransactionRequest` (fields used by the service). -/
structure TransactionRequest where
  signature : String
  commitment : String
deriving Repr, DecidableEq

/-- proto message `TransactionResponse`. -/
structure TransactionResponse where
  signature : String
  slot : Nat
  transaction : String
  success : Bool
  responseTimeMs : Nat
deriving Repr, DecidableEq

/-- `BenchmarkService.GetTransaction`: parses the signature with
`solana.SignatureFromBase58` (`parseSig`); on failure returns
`InvalidArgument` without a blockchain call; otherwise consults the
blockchain RPC and on success echoes the signature, copies the slot, the
formatted transaction data and `Meta.Err == nil` as the success flag.
The second component records whether the blockchain RPC was called. -/
def GetTransaction (parseSig : String → Bool) (rpcResult : Option TxValue)
    (elapsedMs : Nat) (req : TransactionRequest) :
    Except GrpcCode TransactionResponse × Bool :=
  if parseSig req.signature then
    match rpcResult with
    | none => (.error .internal, true)
    | some v =>
        (.ok { signature := req.signature
               slot := v.slot
               transaction := v.txData
               success := v.metaErrIsNil
               responseTimeMs := elapsedMs % U64 }, true)
  else (.error .invalidArgument, false)

/-! ### The six latency samplers

Each sampler walks `attemptList targets iterations` in program order; the
blockchain environment of attempt `(i, k)` is supplied by oracles indexed
by iteration `i` and target index `k`.  The sampler body only tests
`err == nil`, so each attempt is summarised by its `SampleOutcome`. -/

/-- Outcome of one attempt of `runAccountGrpcBenchmark` (which calls
`GetAccountInfo` with commitment "finalized" and binary encoding): an
`InvalidArgument` error means the pubkey did not parse (no call made),
`Internal` means the call errored, otherwise the response's
`ResponseTimeMs` is the sample. -/
def accountGrpcOutcome (parse : String → Bool) (rpcResult : Option AccountValue)
    (elapsedMs : Nat) (account : String) : SampleOutcome :=
  match (GetAccountInfo parse rpcResult elapsedMs
      { pubkey := account, commitment := "finalized", encodingBinary := true }).1 with
  | .ok resp => .success resp.responseTimeMs
  | .error .invalidArgument => .malformed
  | .error .internal => .callError

/-- Outcomes of all `iterations × targets.length` attempts of
`runAccountGrpcBenchmark`, in program order. -/
def accountGrpcOutcomes (parse : String → Bool)
    (rpc : Nat → Nat → Option AccountValue) (elapsed : Nat → Nat → Nat)
    (iterations : Nat) (testAccounts : List String) : List SampleOutcome :=
  (attemptList testAccounts iterations).map fun x =>
    accountGrpcOutcome parse (rpc x.1 x.2.1) (elapsed x.1 x.2.1) x.2.2

/-- `runAccountGrpcBenchmark` (lines 306-342): fold the attempt outcomes
through the accumulator, then write the statistics into `result` only if
at least one attempt succeeded. -/
def runAccountGrpcBenchmark (parse : String → Bool)
    (rpc : Nat → Nat → Option AccountValue) (elapsed : Nat → Nat → Nat)
    (iterations : Nat) (testAccounts : List String)
    (result : ResourceBenchmark) : ResourceBenchmark :=
  writeBack (testAccounts.length * iterations)
    (runAccum (accountGrpcOutcomes parse rpc elapsed iterations testAccounts)) result

/-- Outcome of one attempt of `runAccountJsonRpcBenchmark`: a target that
fails `solana.PublicKeyFromBase58` is skipped with `continue` (no call);
otherwise the JSON-RPC client is called (`rpcOk`: whether `err == nil`)
and its elapsed milliseconds are sampled on success. -/
def accountJsonRpcOutcome (parse : String → Bool) (rpcOk : Bool)
    (elapsedMs : Nat) (account : String) : SampleOutcome :=
  if parse account then
    (if rpcOk then .success (elapsedMs % U64) else .callError)
  else .malformed

/-- Outcomes of all attempts of `runAccountJsonRpcBenchmark`, in program
order. -/
def accountJsonRpcOutcomes (parse : String → Bool) (rpcOk : Nat → Nat → Bool)
    (elapsed : Nat → Nat → Nat) (iterations : Nat)
    (testAccounts : List String) : List SampleOutcome :=
  (attemptList testAccounts iterations).map fun x =>
    accountJsonRpcOutcome parse (rpcOk x.1 x.2.1) (elapsed x.1 x.2.1) x.2.2

/-- Number of JSON-RPC network calls made by `runAccountJsonRpcBenchmark`:
the loop body reaches `s.solanaClient.GetAccountInfo` exactly for the
attempts whose target parses. -/
def accountJsonRpcCalls (parse : String → Bool) (iterations : Nat)
    (testAccounts : List String) : Nat :=
  ((attemptList testAccounts iterations).filter fun x => parse x.2.2).length

/-- `runAccountJsonRpcBenchmark` (lines 344-385). -/
def runAccountJsonRpcBenchmark (parse : String → Bool)
    (rpcOk : Nat → Nat → Bool) (elapsed : Nat → Nat → Nat)
    (iterations : Nat) (testAccounts : List String)
    (result : ResourceBenchmark) : ResourceBenchmark :=
  writeBack (testAccounts.length * iterations)
    (runAccum (accountJsonRpcOutcomes parse rpcOk elapsed iterations testAccounts)) result

/-- Outcome of one attempt of `runTransactionGrpcBenchmark`, which calls
`GetTransaction` with commitment "finalized". -/
def transactionGrpcOutcome (parseSig : String → Bool)
    (rpcResult : Option TxValue) (elapsedMs : Nat) (signature : String) :
    SampleOutcome :=
  match (GetTransaction parseSig rpcResult elapsedMs
      { signature := signature, commitment := "finalized" }).1 with
  | .ok resp => .success resp.responseTimeMs
  | .error .invalidArgument => .malformed
  | .error .internal => .callError

/-- `runTransactionGrpcBenchmark` (lines 387-422). -/
def runTransactionGrpcBenchmark (parseSig : String → Bool)
    (rpc : Nat → Nat → Option TxValue) (elapsed : Nat → Nat → Nat)
    (iterations : Nat) (testSignatures : List String)
    (result : ResourceBenchmark) : ResourceBenchmark :=
  writeBack (testSignatures.length * iterations)
    (runAccum ((attemptList testSignatures iterations).map fun x =>
      transactionGrpcOutcome parseSig (rpc x.1 x.2.1) (elapsed x.1 x.2.1) x.2.2))
    result

/-- `runTransactionJsonRpcBenchmark` (lines 424-465): same shape as the
account JSON-RPC sampler, with signature parsing. -/
def runTransactionJsonRpcBenchmark (parseSig : String → Bool)
    (rpcOk : Nat → Nat → Bool) (elapsed : Nat → Nat → Nat)
    (iterations : Nat) (testSignatures : List String)
    (result : ResourceBenchmark) : ResourceBenchmark :=
  writeBack (testSignatures.length * iterations)
    (runAccum ((attemptList testSignatures iterations).map fun x =>
      accountJsonRpcOutcome parseSig (rpcOk x.1 x.2.1) (elapsed x.1 x.2.1) x.2.2))
    result

/-- Outcome of one block-sampler attempt: `GetBlock` performs no target
validation, so every attempt makes a call which either errors or succeeds
with its elapsed milliseconds (the payload assembly of `GetBlock`, lines
94-128, does not affect the latency statistics and is not modelled). -/
def blockOutcome (rpcOk : Bool) (elapsedMs : Nat) : SampleOutcome :=
  if rpcOk then .success (elapsedMs % U64) else .callError

/-- `runBlockGrpcBenchmark` (lines 467-502). -/
def runBlockGrpcBenchmark (rpcOk : Nat → Nat → Bool)
    (elapsed : Nat → Nat → Nat) (iterations : Nat) (testSlots : List Nat)
    (result : ResourceBenchmark) : ResourceBenchmark :=
  writeBack (testSlots.length * iterations)
    (runAccum ((attemptList testSlots iterations).map fun x =>
      blockOutcome (rpcOk x.1 x.2.1) (elapsed x.1 x.2.1)))
    result

/-- `runBlockJsonRpcBenchmark` (lines 504-540): same shape as the gRPC
block sampler. -/
def runBlockJsonRpcBenchmark (rpcOk : Nat → Nat → Bool)
    (elapsed : Nat → Nat → Nat) (iterations : Nat) (testSlots : List Nat)
    (result : ResourceBenchmark) : ResourceBenchmark :=
  writeBack (testSlots.length * iterations)
    (runAccum ((attemptList testSlots iterations).map fun x =>
      blockOutcome (rpcOk x.1 x.2.1) (elapsed x.1 x.2.1)))
    result

/-! ### RunBenchmark -/

/-- proto message `BenchmarkRequest`. -/
structure BenchmarkRequest where
  testAccounts : List String
  testSignatures : List String
  testSlots : List Nat
  iterations : Nat
  runGrpcTests : Bool
  runJsonrpcTests : Bool
deriving Repr, DecidableEq

/-- proto message `BenchmarkSummary`.  `GrpcVsJsonrpcSpeedup` is a Go
`float64`; it is modelled as an exact rational. -/
structure BenchmarkSummary where
  totalDurationMs : Nat := 0
  grpcVsJsonrpcSpeedup : ℚ := 0
  conclusion : String := ""
deriving Repr, DecidableEq

/-- proto message `BenchmarkResults`; `RunBenchmark` allocates every field
at its all-zero default before launching any sampler. -/
structure BenchmarkResults where
  accountGrpc : ResourceBenchmark := {}
  accountJsonrpc : ResourceBenchmark := {}
  transactionGrpc : ResourceBenchmark := {}
  transactionJsonrpc : ResourceBenchmark := {}
  blockGrpc : ResourceBenchmark := {}
  blockJsonrpc : ResourceBenchmark := {}
  summary : BenchmarkSummary := {}
deriving Repr, DecidableEq

/-- External environment of one `RunBenchmark` invocation: base58 parsing
of account and signature strings, and, per sampler and per
(iteration, target index), the blockchain result and elapsed
milliseconds of that attempt; `totalElapsedMs` is the wall-clock duration
from start to the join of all samplers. -/
structure BenchEnv where
  parseAccount : String → Bool
  parseSignature : String → Bool
  accountGrpcRpc : Nat → Nat → Option AccountValue
  accountGrpcElapsed : Nat → Nat → Nat
  accountJsonOk : Nat → Nat → Bool
  accountJsonElapsed : Nat → Nat → Nat
  txGrpcRpc : Nat → Nat → Option TxValue
  txGrpcElapsed : Nat → Nat → Nat
  txJsonOk : Nat → Nat → Bool
  txJsonElapsed : Nat → Nat → Nat
  blockGrpcOk : Nat → Nat → Bool
  blockGrpcElapsed : Nat → Nat → Nat
  blockJsonOk : Nat → Nat → Bool
  blockJsonElapsed : Nat → Nat → Nat
  totalElapsedMs : Nat

/-- Rendering of a nonnegative `float64` with Go's `%.2f` verb, modelled
on exact rationals: round half-up to two decimal places and print with
exactly two digits after the point.  `n` is `⌊100q + 1/2⌋ = ⌊(200·num +
den) / (2·den)⌋`, computed on the reduced fraction of `q`. -/
def formatFixed2 (q : ℚ) : String :=
  let n : Nat := ((200 * q.num + q.den) / (2 * (q.den : Int))).toNat
  toString (n / 100) ++ "." ++ (if n % 100 < 10 then "0" else "") ++ toString (n % 100)

/-- The summary computation of `RunBenchmark` after the join (lines
285-299): the total wall-clock duration, and — only when both account
averages are non-zero — the speedup of gRPC over JSON-RPC on the account
pair together with its conclusion sentence. -/
def computeSummary (totalElapsedMs : Nat)
    (accountJsonrpc accountGrpc : ResourceBenchmark) : BenchmarkSummary :=
  let base : BenchmarkSummary := { totalDurationMs := totalElapsedMs % U64 }
  if 0 < accountJsonrpc.avgResponseTimeMs ∧ 0 < accountGrpc.avgResponseTimeMs then
    let speedup : ℚ :=
      (accountJsonrpc.avgResponseTimeMs : ℚ) / (accountGrpc.avgResponseTimeMs : ℚ)
    { base with
      grpcVsJsonrpcSpeedup := speedup
      conclusion :=
        if 1 < speedup then
          "gRPC is " ++ formatFixed2 speedup ++
            "x faster than JSON-RPC for Solana operations"
        else
          "JSON-RPC is " ++ formatFixed2 (1 / speedup) ++
            "x faster than gRPC for Solana operations" }
  else base

/-- `BenchmarkService.RunBenchmark` (lines 217-302).  Each of the six
samplers is launched in its own goroutine exactly when its target list is
non-empty and its transport flag is set; each goroutine writes only its
own result message, and the summary is computed after the join, so the
concurrent program is equivalent to this sequential composition.  After
the join, the speedup is computed from the two account averages only,
guarded by both being non-zero. -/
def RunBenchmark (env : BenchEnv) (req : BenchmarkRequest) : BenchmarkResults :=
  let accountGrpc : ResourceBenchmark :=
    if 0 < req.testAccounts.length ∧ req.runGrpcTests = true then
      runAccountGrpcBenchmark env.parseAccount env.accountGrpcRpc
        env.accountGrpcElapsed req.iterations req.testAccounts {}
    else {}
  let accountJsonrpc : ResourceBenchmark :=
    if 0 < req.testAccounts.length ∧ req.runJsonrpcTests = true then
      runAccountJsonRpcBenchmark env.parseAccount env.accountJsonOk
        env.accountJsonElapsed req.iterations req.testAccounts {}
    else {}
  let transactionGrpc : ResourceBenchmark :=
    if 0 < req.testSignatures.length ∧ req.runGrpcTests = true then
      runTransactionGrpcBenchmark env.parseSignature env.txGrpcRpc
        env.txGrpcElapsed req.iterations req.testSignatures {}
    else {}
  let transactionJsonrpc : ResourceBenchmark :=
    if 0 < req.testSignatures.length ∧ req.runJsonrpcTests = true then
      runTransactionJsonRpcBenchmark env.parseSignature env.txJsonOk
        env.txJsonElapsed req.iterations req.testSignatures {}
    else {}
  let blockGrpc : ResourceBenchmark :=
    if 0 < req.testSlots.length ∧ req.runGrpcTests = true then
      runBlockGrpcBenchmark env.blockGrpcOk env.blockGrpcElapsed
        req.iterations req.testSlots {}
    else {}
  let blockJsonrpc : ResourceBenchmark :=
    if 0 < req.testSlots.length ∧ req.runJsonrpcTests = true then
      runBlockJsonRpcBenchmark env.blockJsonOk env.blockJsonElapsed
        req.iterations req.testSlots {}
    else {}
  let summary : BenchmarkSummary :=
    computeSummary env.totalElapsedMs accountJsonrpc accountGrpc
  { accountGrpc := accountGrpc
    accountJsonrpc := accountJsonrpc
    transactionGrpc := transactionGrpc
    transactionJsonrpc := transactionJsonrpc
    blockGrpc := blockGrpc
    blockJsonrpc := blockJsonrpc
    summary := summary }

/-! ### The placeholder streaming endpoints

`StreamTransactions` and `StreamBlocks` loop `i = 0 .. 9`, build a
simulated update from the loop counter alone, and send it; a send error
aborts the stream with an `Internal` status, otherwise the stream ends
with no error.  The request message is never read.  The 1-second sleep
between sends is real time and is not modelled. -/

/-- proto message `TransactionStreamRequest`. -/
structure TransactionStreamRequest where
  accounts : List String
  includeFailed : Bool
  commitment : String
deriving Repr, DecidableEq

/-- proto message `BlockStreamRequest`. -/
structure BlockStreamRequest where
  commitment : String
deriving Repr, DecidableEq

/-- proto message `TransactionUpdate` (`Transaction` bytes kept as a
string). -/
structure TransactionUpdate where
  signature : String
  slot : Nat
  transaction : String
  success : Bool
  timestamp : Nat
deriving Repr, DecidableEq

/-- proto message `BlockUpdate`. -/
structure BlockUpdate where
  slot : Nat
  blockhash : String
  previousBlockhash : String
  parentSlot : Nat
  timestamp : Nat
deriving Repr, DecidableEq

/-- The send loop shared by the two simulated streams: starting at index
`i` with `n` sends left, deliver `mk i` when the stream accepts it
(`sendOk i`), stopping with an `Internal` error on the first failed
send. -/
def streamLoop (sendOk : Nat → Bool) (mk : Nat → α) :
    Nat → Nat → List α × Option GrpcCode
  | _, 0 => ([], none)
  | i, n + 1 =>
    if sendOk i then
      let r := streamLoop sendOk mk (i + 1) n
      (mk i :: r.1, r.2)
    else ([], some .internal)

/-- `BenchmarkService.StreamTransactions` (lines 173-192): ten simulated
updates built from the loop counter; `now i` is the wall clock at send
`i`.  The request is ignored. -/
def StreamTransactions (sendOk : Nat → Bool) (now : Nat → Nat)
    (_req : TransactionStreamRequest) : List TransactionUpdate × Option GrpcCode :=
  streamLoop sendOk
    (fun i =>
      { signature := "simulated_signature_" ++ toString i
        slot := 100000 + i
        transaction := "simulated_transaction_data"
        success := true
        timestamp := now i % U64 })
    0 10

/-- `BenchmarkService.StreamBlocks` (lines 195-214): ten simulated block
updates with slots 100000 through 100009.  The request is ignored. -/
def StreamBlocks (sendOk : Nat → Bool) (now : Nat → Nat)
    (_req : BlockStreamRequest) : List BlockUpdate × Option GrpcCode :=
  streamLoop sendOk
    (fun i =>
      { slot := 100000 + i
        blockhash := "simulated_blockhash_" ++ toString i
        previousBlockhash := "simulated_previous_blockhash_" ++ toString ((i : Int) - 1)
        parentSlot := 100000 + i - 1
        timestamp := now i % U64 })
    0 10

/-! ### Closed forms for the accumulator fold -/

@[simp]
lemma accumStep_malformed (acc : Accum) : accumStep acc .malformed = acc := rfl

@[simp]
lemma accumStep_callError (acc : Accum) : accumStep acc .callError = acc := rfl

@[simp]
lemma successValues_nil : successValues [] = [] := rfl

@[simp]
lemma successValues_cons_success (t : Nat) (os : List SampleOutcome) :
    successValues (.success t :: os) = t % U64 :: successValues os := rfl

@[simp]
lemma successValues_cons_malformed (os : List SampleOutcome) :
    successValues (.malformed :: os) = successValues os := rfl

@[simp]
lemma successValues_cons_callError (os : List SampleOutcome) :
    successValues (.callError :: os) = successValues os := rfl

lemma U64_pos : 0 < U64 := by decide

lemma U32_pos : 0 < U32 := by decide

lemma foldl_accumStep_totalTime (os : List SampleOutcome) :
    ∀ acc : Accum, acc.totalTime < U64 →
      (os.foldl accumStep acc).totalTime =
        (acc.totalTime + (successValues os).sum) % U64 := by
  induction os with
  | nil =>
      intro acc h
      simpa using (Nat.mod_eq_of_lt h).symm
  | cons o os ih =>
      intro acc h
      cases o with
      | success t =>
          rw [List.foldl_cons,
            ih _ (Nat.mod_lt _ U64_pos)]
          show ((acc.totalTime + t % U64) % U64 + (successValues os).sum) % U64 =
            (acc.totalTime + (t % U64 + (successValues os).sum)) % U64
          rw [Nat.mod_add_mod, Nat.add_assoc]
      | malformed => simpa using ih acc h
      | callError => simpa using ih acc h

lemma foldl_accumStep_successCount (os : List SampleOutcome) :
    ∀ acc : Accum, acc.successCount < U32 →
      (os.foldl accumStep acc).successCount =
        (acc.successCount + (successValues os).length) % U32 := by
  induction os with
  | nil =>
      intro acc h
      simpa using (Nat.mod_eq_of_lt h).symm
  | cons o os ih =>
      intro acc h
      cases o with
      | success t =>
          rw [List.foldl_cons,
            ih _ (Nat.mod_lt _ U32_pos)]
          show ((acc.successCount + 1) % U32 + (successValues os).length) % U32 =
            (acc.successCount + (t % U64 :: successValues os).length) % U32
          rw [Nat.mod_add_mod, List.length_cons, Nat.add_assoc, Nat.add_comm 1]
      | malformed => simpa using ih acc h
      | callError => simpa using ih acc h

lemma foldl_accumStep_minTime (os : List SampleOutcome) :
    ∀ acc : Accum,
      (os.foldl accumStep acc).minTime =
        (successValues os).foldl minStep acc.minTime := by
  induction os with
  | nil => intro acc; rfl
  | cons o os ih =>
      intro acc
      cases o with
      | success t => rw [List.foldl_cons, ih]; rfl
      | malformed => simpa using ih acc
      | callError => simpa using ih acc

lemma foldl_accumStep_maxTime (os : List SampleOutcome) :
    ∀ acc : Accum,
      (os.foldl accumStep acc).maxTime =
        (successValues os).foldl maxStep acc.maxTime := by
  induction os with
  | nil => intro acc; rfl
  | cons o os ih =>
      intro acc
      cases o with
      | success t => rw [List.foldl_cons, ih]; rfl
      | malformed => simpa using ih acc
      | callError => simpa using ih acc

lemma runAccum_totalTime (os : List SampleOutcome) :
    (runAccum os).totalTime = (successValues os).sum % U64 := by
  have h := foldl_accumStep_totalTime os accumInit (by decide)
  simpa [runAccum, accumInit] using h

lemma runAccum_successCount (os : List SampleOutcome) :
    (runAccum os).successCount = (successValues os).length % U32 := by
  have h := foldl_accumStep_successCount os accumInit (by decide)
  simpa [runAccum, accumInit] using h

lemma runAccum_minTime (os : List SampleOutcome) :
    (runAccum os).minTime = (successValues os).foldl minStep (U64 - 1) :=
  foldl_accumStep_minTime os accumInit

lemma runAccum_maxTime (os : List SampleOutcome) :
    (runAccum os).maxTime = (successValues os).foldl maxStep 0 :=
  foldl_accumStep_maxTime os accumInit

/-! ### Bounds of the running minimum and maximum -/

lemma foldl_minStep_le_init (vs : List Nat) :
    ∀ m : Nat, vs.foldl minStep m ≤ m := by
  induction vs with
  | nil => intro m; exact Nat.le_refl m
  | cons v vs ih =>
      intro m
      refine Nat.le_trans (ih (minStep m v)) ?_
      unfold minStep
      split <;> omega

lemma foldl_minStep_le_mem (vs : List Nat) :
    ∀ m v, v ∈ vs → vs.foldl minStep m ≤ v := by
  induction vs with
  | nil => intro m v hv; cases hv
  | cons w vs ih =>
      intro m v hv
      rcases List.mem_cons.1 hv with h | h
      · subst h
        refine Nat.le_trans (foldl_minStep_le_init vs (minStep m v)) ?_
        unfold minStep
        split <;> omega
      · exact ih (minStep m w) v h

lemma init_le_foldl_maxStep (vs : List Nat) :
    ∀ m : Nat, m ≤ vs.foldl maxStep m := by
  induction vs with
  | nil => intro m; exact Nat.le_refl m
  | cons v vs ih =>
      intro m
      refine Nat.le_trans ?_ (ih (maxStep m v))
      unfold maxStep
      split <;> omega

lemma mem_le_foldl_maxStep (vs : List Nat) :
    ∀ m v, v ∈ vs → v ≤ vs.foldl maxStep m := by
  induction vs with
  | nil => intro m v hv; cases hv
  | cons w vs ih =>
      intro m v hv
      rcases List.mem_cons.1 hv with h | h
      · subst h
        refine Nat.le_trans ?_ (init_le_foldl_maxStep vs (maxStep m v))
        unfold maxStep
        split <;> omega
      · exact ih (maxStep m w) v h

lemma length_mul_le_sum (vs : List Nat) (a : Nat) (h : ∀ v ∈ vs, a ≤ v) :
    vs.length * a ≤ vs.sum := by
  induction vs with
  | nil => simp
  | cons v vs ih =>
      have h1 : a ≤ v := h v (List.mem_cons_self v vs)
      have h2 : vs.length * a ≤ vs.sum := ih fun w hw => h w (List.mem_cons_of_mem v hw)
      simp only [List.length_cons, List.sum_cons, Nat.succ_mul]
      omega

lemma sum_le_length_mul (vs : List Nat) (b : Nat) (h : ∀ v ∈ vs, v ≤ b) :
    vs.sum ≤ vs.length * b := by
  induction vs with
  | nil => simp
  | cons v vs ih =>
      have h1 : v ≤ b := h v (List.mem_cons_self v vs)
      have h2 : vs.sum ≤ vs.length * b := ih fun w hw => h w (List.mem_cons_of_mem v hw)
      simp only [List.length_cons, List.sum_cons, Nat.succ_mul]
      omega

lemma attemptList_length (targets : List α) (n : Nat) :
    (attemptList targets n).length = n * targets.length := by
  induction n with
  | zero => simp [attemptList]
  | succ n ih =>
      simp [attemptList, ih, Nat.succ_mul]

lemma successValues_length_le (os : List SampleOutcome) :
    (successValues os).length ≤ os.length :=
  List.length_filterMap_le _ os

/-! ### Sampler-level facts shared by the claims -/

lemma writeBack_counts (os : List SampleOutcome) (attempts : Nat)
    (result : ResourceBenchmark)
    (hsv : (successValues os).length ≤ attempts) (hatt : attempts < U32)
    (hpos : 0 < (runAccum os).successCount) :
    (writeBack attempts (runAccum os) result).successfulRequests =
        (successValues os).length ∧
      (writeBack attempts (runAccum os) result).failedRequests =
        attempts - (successValues os).length := by
  have hslt : (successValues os).length < U32 := Nat.lt_of_le_of_lt hsv hatt
  have hsc : (runAccum os).successCount = (successValues os).length := by
    rw [runAccum_successCount, Nat.mod_eq_of_lt hslt]
  refine ⟨?_, ?_⟩
  · unfold writeBack
    rw [if_pos hpos]
    exact hsc
  · unfold writeBack
    rw [if_pos hpos]
    show (attempts % U32 + (U32 - (runAccum os).successCount % U32)) % U32 =
      attempts - (successValues os).length
    rw [hsc, Nat.mod_eq_of_lt hatt, Nat.mod_eq_of_lt hslt]
    have hU : U32 = 4294967296 := by norm_num [U32]
    rw [hU]
    rw [hU] at hatt hslt
    omega

lemma writeBack_avg_between (os : List SampleOutcome) (attempts : Nat)
    (result : ResourceBenchmark)
    (hsum : (successValues os).sum < U64) (hcnt : (successValues os).length < U32)
    (hpos : 0 < (runAccum os).successCount) :
    (writeBack attempts (runAccum os) result).minResponseTimeMs ≤
        (writeBack attempts (runAccum os) result).avgResponseTimeMs ∧
      (writeBack attempts (runAccum os) result).avgResponseTimeMs ≤
        (writeBack attempts (runAccum os) result).maxResponseTimeMs := by
  have hsc : (runAccum os).successCount = (successValues os).length := by
    rw [runAccum_successCount, Nat.mod_eq_of_lt hcnt]
  have hlpos : 0 < (successValues os).length := by
    rw [hsc] at hpos
    exact hpos
  have htt : (runAccum os).totalTime = (successValues os).sum := by
    rw [runAccum_totalTime, Nat.mod_eq_of_lt hsum]
  have hmin : ∀ v ∈ successValues os, (runAccum os).minTime ≤ v := by
    intro v hv
    rw [runAccum_minTime]
    exact foldl_minStep_le_mem (successValues os) _ v hv
  have hmax : ∀ v ∈ successValues os, v ≤ (runAccum os).maxTime := by
    intro v hv
    rw [runAccum_maxTime]
    exact mem_le_foldl_maxStep (successValues os) _ v hv
  constructor
  · unfold writeBack
    rw [if_pos hpos]
    show (runAccum os).minTime ≤ (runAccum os).totalTime / (runAccum os).successCount
    rw [htt, hsc, Nat.le_div_iff_mul_le hlpos]
    calc (runAccum os).minTime * (successValues os).length
        = (successValues os).length * (runAccum os).minTime := Nat.mul_comm _ _
      _ ≤ (successValues os).sum := length_mul_le_sum _ _ hmin
  · unfold writeBack
    rw [if_pos hpos]
    show (runAccum os).totalTime / (runAccum os).successCount ≤ (runAccum os).maxTime
    rw [htt, hsc]
    calc (successValues os).sum / (successValues os).length
        ≤ (successValues os).length * (runAccum os).maxTime / (successValues os).length :=
          Nat.div_le_div_right (sum_le_length_mul _ _ hmax)
      _ = (runAccum os).maxTime := Nat.mul_div_cancel_left _ hlpos

lemma writeBack_of_no_success (os : List SampleOutcome) (attempts : Nat)
    (result : ResourceBenchmark) (hfail : successValues os = []) :
    writeBack attempts (runAccum os) result = result := by
  have hsc0 : (runAccum os).successCount = 0 := by
    rw [runAccum_successCount, hfail]
    rfl
  unfold writeBack
  rw [hsc0]
  simp

lemma foldl_accumStep_filter_malformed (os : List SampleOutcome) :
    ∀ acc : Accum,
      (os.filter fun o => decide (o ≠ SampleOutcome.malformed)).foldl accumStep acc =
        os.foldl accumStep acc := by
  induction os with
  | nil => intro acc; rfl
  | cons o os ih =>
      intro acc
      cases o with
      | malformed => simpa using ih acc
      | callError => simpa [List.filter_cons] using ih (accumStep acc .callError)
      | success t => simpa [List.filter_cons] using ih (accumStep acc (.success t))

lemma runAccum_filter_malformed (os : List SampleOutcome) :
    runAccum (os.filter fun o => decide (o ≠ SampleOutcome.malformed)) = runAccum os :=
  foldl_accumStep_filter_malformed os accumInit

lemma jsonRpcCalls_eq_nonmalformed (parse : String → Bool)
    (rpcOk : Nat → Nat → Bool) (elapsed : Nat → Nat → Nat)
    (l : List (Nat × Nat × String)) :
    ((l.map fun x =>
        accountJsonRpcOutcome parse (rpcOk x.1 x.2.1) (elapsed x.1 x.2.1) x.2.2).filter
          fun o => decide (o ≠ SampleOutcome.malformed)).length =
      (l.filter fun x => parse x.2.2).length := by
  induction l with
  | nil => rfl
  | cons x l ih =>
      by_cases hp : parse x.2.2
      · have ho : accountJsonRpcOutcome parse (rpcOk x.1 x.2.1)
            (elapsed x.1 x.2.1) x.2.2 ≠ SampleOutcome.malformed := by
          unfold accountJsonRpcOutcome
          rw [if_pos hp]
          cases hb : rpcOk x.1 x.2.1 <;> simp
        simp only [List.map_cons, List.filter_cons, hp, ho, if_true]
        simp only [decide_not] at ih ⊢
        simp [ho, ih]
      · have ho : accountJsonRpcOutcome parse (rpcOk x.1 x.2.1)
            (elapsed x.1 x.2.1) x.2.2 = SampleOutcome.malformed := by
          unfold accountJsonRpcOutcome
          rw [if_neg hp]
        simp only [List.map_cons, List.filter_cons, hp, ho]
        simp only [decide_not] at ih ⊢
        simp [ih]

lemma successValues_length_add_malformed (os : List SampleOutcome) :
    (successValues os).length +
        (os.filter fun o => decide (o = SampleOutcome.malformed)).length ≤
      os.length := by
  induction os with
  | nil => simp
  | cons o os ih =>
      cases o <;> simp [List.filter_cons] <;> omega

lemma sampler_counts_sum (os : List SampleOutcome) (K iterations : Nat)
    (result : ResourceBenchmark)
    (hlen : os.length = iterations * K) (hIK : iterations * K < U32)
    (hpos : 0 < (runAccum os).successCount) :
    (writeBack (K * iterations) (runAccum os) result).successfulRequests +
      (writeBack (K * iterations) (runAccum os) result).failedRequests =
      iterations * K := by
  have hsv : (successValues os).length ≤ K * iterations := by
    calc (successValues os).length ≤ os.length := successValues_length_le os
      _ = iterations * K := hlen
      _ = K * iterations := Nat.mul_comm _ _
  have hatt : K * iterations < U32 := by
    rw [Nat.mul_comm]
    exact hIK
  obtain ⟨h1, h2⟩ := writeBack_counts os (K * iterations) result hsv hatt hpos
  rw [h1, h2, Nat.mul_comm iterations K]
  exact Nat.add_sub_cancel' hsv

/-! ### The claims -/

/-- C1 (amended): for both account samplers, whenever the run records at
least one successful attempt (and the attempt count I × K fits in uint32),
the produced ResourceBenchmark satisfies
successfulRequests + failedRequests = I × K.  The original claim also
covered the all-fail case, where the write-back is in fact skipped and
both counters stay 0 (see the counterexample). -/
theorem c1_success_plus_failed_eq_attempts
    (parse : String → Bool) (rpc : Nat → Nat → Option AccountValue)
    (elapsedG : Nat → Nat → Nat) (rpcOk : Nat → Nat → Bool)
    (elapsedJ : Nat → Nat → Nat) (iterations : Nat)
    (testAccounts : List String) (result resultJ : ResourceBenchmark)
    (hIK : iterations * testAccounts.length < U32) :
    (0 < (runAccum (accountGrpcOutcomes parse rpc elapsedG iterations
          testAccounts)).successCount →
      (runAccountGrpcBenchmark parse rpc elapsedG iterations testAccounts
            result).successfulRequests +
          (runAccountGrpcBenchmark parse rpc elapsedG iterations testAccounts
            result).failedRequests =
        iterations * testAccounts.length) ∧
    (0 < (runAccum (accountJsonRpcOutcomes parse rpcOk elapsedJ iterations
          testAccounts)).successCount →
      (runAccountJsonRpcBenchmark parse rpcOk elapsedJ iterations testAccounts
            resultJ).successfulRequests +
          (runAccountJsonRpcBenchmark parse rpcOk elapsedJ iterations testAccounts
            resultJ).failedRequests =
        iterations * testAccounts.length) := by
  constructor
  · intro hpos
    refine sampler_counts_sum _ _ _ _ ?_ hIK hpos
    simp [accountGrpcOutcomes, attemptList_length]
  · intro hpos
    refine sampler_counts_sum _ _ _ _ ?_ hIK hpos
    simp [accountJsonRpcOutcomes, attemptList_length]

/-- Witness for C1: two iterations over one well-formed account target with
every call succeeding, for both transports. -/
theorem c1_success_plus_failed_eq_attempts_witness :
    (runAccountGrpcBenchmark (fun _ => true)
          (fun _ _ => some ⟨[], "", 0, false, 0⟩) (fun _ _ => 3)
          2 ["a"] {}).successfulRequests +
        (runAccountGrpcBenchmark (fun _ => true)
          (fun _ _ => some ⟨[], "", 0, false, 0⟩) (fun _ _ => 3)
          2 ["a"] {}).failedRequests = 2 * 1 :=
  (c1_success_plus_failed_eq_attempts (fun _ => true)
    (fun _ _ => some ⟨[], "", 0, false, 0⟩) (fun _ _ => 3)
    (fun _ _ => true) (fun _ _ => 4) 2 ["a"] {} {} (by decide)).1 (by decide)

/-- Counterexample to C1 as stated: one iteration over one well-formed
account target whose call fails; the write-back is skipped, so
successfulRequests + failedRequests is 0, not 1 × 1. -/
theorem c1_counterexample :
    ¬ ((runAccountGrpcBenchmark (fun _ => true) (fun _ _ => none)
          (fun _ _ => 0) 1 ["a"] {}).successfulRequests +
        (runAccountGrpcBenchmark (fun _ => true) (fun _ _ => none)
          (fun _ _ => 0) 1 ["a"] {}).failedRequests = 1 * 1) := by decide

/-- C2 (amended): if every attempt of the account gRPC sampler fails, the
result message is left untouched — started at the all-zero proto default
it stays all-zero, in particular minResponseTimeMs is 0, not the max-uint64
sentinel — while the sentinel remains only in the sampler's internal
accumulator, whose minTime is still 2^64 - 1 and whose successCount is 0. -/
theorem c2_all_fail_zero_defaults (parse : String → Bool)
    (rpc : Nat → Nat → Option AccountValue) (elapsed : Nat → Nat → Nat)
    (iterations : Nat) (testAccounts : List String)
    (hfail : successValues
      (accountGrpcOutcomes parse rpc elapsed iterations testAccounts) = []) :
    runAccountGrpcBenchmark parse rpc elapsed iterations testAccounts {} =
        ({} : ResourceBenchmark) ∧
      (runAccum (accountGrpcOutcomes parse rpc elapsed iterations
        testAccounts)).minTime = U64 - 1 ∧
      (runAccum (accountGrpcOutcomes parse rpc elapsed iterations
        testAccounts)).successCount = 0 := by
  refine ⟨writeBack_of_no_success _ _ _ hfail, ?_, ?_⟩
  · rw [runAccum_minTime, hfail]
    rfl
  · rw [runAccum_successCount, hfail]
    rfl

/-- Witness for C2: one well-formed target whose single call fails. -/
theorem c2_all_fail_zero_defaults_witness :
    runAccountGrpcBenchmark (fun _ => true) (fun _ _ => none) (fun _ _ => 0)
        1 ["a"] {} = ({} : ResourceBenchmark) ∧
      (runAccum (accountGrpcOutcomes (fun _ => true) (fun _ _ => none)
        (fun _ _ => 0) 1 ["a"])).minTime = U64 - 1 ∧
      (runAccum (accountGrpcOutcomes (fun _ => true) (fun _ _ => none)
        (fun _ _ => 0) 1 ["a"])).successCount = 0 :=
  c2_all_fail_zero_defaults (fun _ => true) (fun _ _ => none) (fun _ _ => 0)
    1 ["a"] (by decide)

/-- Counterexample to C2 as stated: in the all-fail run the returned
ResourceBenchmark's minResponseTimeMs is 0 (the proto default), not the
max-uint64 sentinel the claim demands. -/
theorem c2_counterexample :
    ¬ ((runAccountGrpcBenchmark (fun _ => true) (fun _ _ => none)
          (fun _ _ => 0) 1 ["a"] {}).minResponseTimeMs = 2 ^ 64 - 1) := by
  decide

/-- C3 (amended): for the account gRPC sampler, when at least one attempt
succeeds AND the summed successful latencies fit in uint64 AND the success
count fits in uint32 (no wrap-around of the running total or counter), the
reported average — integer-truncating division of the total by the success
count — lies between the reported min and max inclusive.  Without the
no-overflow side conditions the property fails (see the counterexample). -/
theorem c3_avg_between_min_and_max (parse : String → Bool)
    (rpc : Nat → Nat → Option AccountValue) (elapsed : Nat → Nat → Nat)
    (iterations : Nat) (testAccounts : List String)
    (result : ResourceBenchmark)
    (hsum : (successValues (accountGrpcOutcomes parse rpc elapsed iterations
      testAccounts)).sum < U64)
    (hcnt : (successValues (accountGrpcOutcomes parse rpc elapsed iterations
      testAccounts)).length < U32)
    (hpos : 0 < (runAccum (accountGrpcOutcomes parse rpc elapsed iterations
      testAccounts)).successCount) :
    (runAccountGrpcBenchmark parse rpc elapsed iterations testAccounts
          result).minResponseTimeMs ≤
        (runAccountGrpcBenchmark parse rpc elapsed iterations testAccounts
          result).avgResponseTimeMs ∧
      (runAccountGrpcBenchmark parse rpc elapsed iterations testAccounts
          result).avgResponseTimeMs ≤
        (runAccountGrpcBenchmark parse rpc elapsed iterations testAccounts
          result).maxResponseTimeMs :=
  writeBack_avg_between _ _ _ hsum hcnt hpos

/-- Witness for C3: five successful samples 10, 12, 11, 9, 10 ms. -/
theorem c3_avg_between_min_and_max_witness :
    (runAccountGrpcBenchmark (fun _ => true)
          (fun _ _ => some ⟨[], "", 0, false, 0⟩)
          (fun i _ => [10, 12, 11, 9, 10].getD i 0) 5 ["a"]
          {}).minResponseTimeMs ≤
        (runAccountGrpcBenchmark (fun _ => true)
          (fun _ _ => some ⟨[], "", 0, false, 0⟩)
          (fun i _ => [10, 12, 11, 9, 10].getD i 0) 5 ["a"]
          {}).avgResponseTimeMs ∧
      (runAccountGrpcBenchmark (fun _ => true)
          (fun _ _ => some ⟨[], "", 0, false, 0⟩)
          (fun i _ => [10, 12, 11, 9, 10].getD i 0) 5 ["a"]
          {}).avgResponseTimeMs ≤
        (runAccountGrpcBenchmark (fun _ => true)
          (fun _ _ => some ⟨[], "", 0, false, 0⟩)
          (fun i _ => [10, 12, 11, 9, 10].getD i 0) 5 ["a"]
          {}).maxResponseTimeMs :=
  c3_avg_between_min_and_max (fun _ => true)
    (fun _ _ => some ⟨[], "", 0, false, 0⟩)
    (fun i _ => [10, 12, 11, 9, 10].getD i 0) 5 ["a"] {}
    (by decide) (by decide) (by decide)

/-- Counterexample to C3 as stated: two successful samples of 2^63 ms each
wrap the uint64 running total to 0, so the reported average 0 falls below
the reported minimum 2^63. -/
theorem c3_counterexample :
    ¬ ((runAccountGrpcBenchmark (fun _ => true)
          (fun _ _ => some ⟨[], "", 0, false, 0⟩) (fun _ _ => 2 ^ 63)
          1 ["a", "b"] {}).minResponseTimeMs ≤
        (runAccountGrpcBenchmark (fun _ => true)
          (fun _ _ => some ⟨[], "", 0, false, 0⟩) (fun _ _ => 2 ^ 63)
          1 ["a", "b"] {}).avgResponseTimeMs) := by decide

/-- C7 (amended): in the account JSON-RPC sampler, a malformed target makes
no network call — the number of JSON-RPC calls equals the number of
non-malformed attempt outcomes — and contributes no latency sample: the
accumulator is unchanged when malformed outcomes are dropped.  It is
reflected in the failure total whenever the pair records at least one
success, since then failedRequests = attempts − successfulRequests, which
includes every malformed attempt; with zero successes the result message
is left untouched, so the failure total stays 0 (see the counterexample). -/
theorem c7_malformed_skipped (parse : String → Bool)
    (rpcOk : Nat → Nat → Bool) (elapsed : Nat → Nat → Nat)
    (iterations : Nat) (testAccounts : List String)
    (result : ResourceBenchmark)
    (hIK : iterations * testAccounts.length < U32) :
    accountJsonRpcCalls parse iterations testAccounts =
        ((accountJsonRpcOutcomes parse rpcOk elapsed iterations
          testAccounts).filter fun o =>
            decide (o ≠ SampleOutcome.malformed)).length ∧
      runAccum ((accountJsonRpcOutcomes parse rpcOk elapsed iterations
          testAccounts).filter fun o =>
            decide (o ≠ SampleOutcome.malformed)) =
        runAccum (accountJsonRpcOutcomes parse rpcOk elapsed iterations
          testAccounts) ∧
      (0 < (runAccum (accountJsonRpcOutcomes parse rpcOk elapsed iterations
          testAccounts)).successCount →
        ((accountJsonRpcOutcomes parse rpcOk elapsed iterations
            testAccounts).filter fun o =>
              decide (o = SampleOutcome.malformed)).length ≤
            (runAccountJsonRpcBenchmark parse rpcOk elapsed iterations
              testAccounts result).failedRequests ∧
          (runAccountJsonRpcBenchmark parse rpcOk elapsed iterations
              testAccounts result).failedRequests =
            iterations * testAccounts.length -
              (runAccountJsonRpcBenchmark parse rpcOk elapsed iterations
                testAccounts result).successfulRequests) := by
  refine ⟨?_, runAccum_filter_malformed _, ?_⟩
  · exact (jsonRpcCalls_eq_nonmalformed parse rpcOk elapsed
      (attemptList testAccounts iterations)).symm
  · intro hpos
    have hlen : (accountJsonRpcOutcomes parse rpcOk elapsed iterations
        testAccounts).length = iterations * testAccounts.length := by
      simp [accountJsonRpcOutcomes, attemptList_length]
    have hsv : (successValues (accountJsonRpcOutcomes parse rpcOk elapsed
        iterations testAccounts)).length ≤ testAccounts.length * iterations := by
      calc (successValues _).length
          ≤ (accountJsonRpcOutcomes parse rpcOk elapsed iterations
              testAccounts).length := successValues_length_le _
        _ = iterations * testAccounts.length := hlen
        _ = testAccounts.length * iterations := Nat.mul_comm _ _
    have hatt : testAccounts.length * iterations < U32 := by
      rw [Nat.mul_comm]
      exact hIK
    obtain ⟨h1, h2⟩ := writeBack_counts
      (accountJsonRpcOutcomes parse rpcOk elapsed iterations testAccounts)
      (testAccounts.length * iterations) result hsv hatt hpos
    have hpart := successValues_length_add_malformed
      (accountJsonRpcOutcomes parse rpcOk elapsed iterations testAccounts)
    rw [hlen] at hpart
    constructor
    · show _ ≤ (writeBack (testAccounts.length * iterations) _ result).failedRequests
      rw [h2]
      refine Nat.le_sub_of_add_le ?_
      rw [Nat.add_comm, Nat.mul_comm]
      exact hpart
    · show (writeBack (testAccounts.length * iterations) _ result).failedRequests =
        iterations * testAccounts.length -
          (writeBack (testAccounts.length * iterations) _ result).successfulRequests
      rw [h1, h2, Nat.mul_comm testAccounts.length iterations]

/-- Witness for C7: one iteration over a parsing and a non-parsing target,
with the parsed call succeeding: the malformed attempt is included in the
failure total. -/
theorem c7_malformed_skipped_witness :
    ((accountJsonRpcOutcomes (fun s => s == "good") (fun _ _ => true)
        (fun _ _ => 5) 1 ["good", "bad"]).filter fun o =>
          decide (o = SampleOutcome.malformed)).length ≤
        (runAccountJsonRpcBenchmark (fun s => s == "good") (fun _ _ => true)
          (fun _ _ => 5) 1 ["good", "bad"] {}).failedRequests ∧
      (runAccountJsonRpcBenchmark (fun s => s == "good") (fun _ _ => true)
          (fun _ _ => 5) 1 ["good", "bad"] {}).failedRequests =
        1 * 2 -
          (runAccountJsonRpcBenchmark (fun s => s == "good") (fun _ _ => true)
            (fun _ _ => 5) 1 ["good", "bad"] {}).successfulRequests := by
  have h := (c7_malformed_skipped (fun s => s == "good") (fun _ _ => true)
    (fun _ _ => 5) 1 ["good", "bad"] {} (by decide)).2.2 (by decide)
  simpa using h

/-- Counterexample to C7 as stated: a single malformed attempt with no
successes anywhere makes no call (consistent with the claim) but the
failure total stays 0, so the malformed attempt is NOT counted in it. -/
theorem c7_counterexample :
    accountJsonRpcCalls (fun _ => false) 1 ["bad"] = 0 ∧
      ¬ (1 ≤ (runAccountJsonRpcBenchmark (fun _ => false) (fun _ _ => true)
          (fun _ _ => 0) 1 ["bad"] {}).failedRequests) := by decide

lemma runBenchmark_summary (env : BenchEnv) (req : BenchmarkRequest) :
    (RunBenchmark env req).summary =
      computeSummary env.totalElapsedMs (RunBenchmark env req).accountJsonrpc
        (RunBenchmark env req).accountGrpc := rfl

/-- C4: the speedup is computed exactly when both account averages are
non-zero; otherwise it stays at its zero default and the conclusion string
stays empty. -/
theorem c4_speedup_guard (env : BenchEnv) (req : BenchmarkRequest) :
    ((0 < (RunBenchmark env req).accountJsonrpc.avgResponseTimeMs ∧
        0 < (RunBenchmark env req).accountGrpc.avgResponseTimeMs) →
      (RunBenchmark env req).summary.grpcVsJsonrpcSpeedup =
          ((RunBenchmark env req).accountJsonrpc.avgResponseTimeMs : ℚ) /
            ((RunBenchmark env req).accountGrpc.avgResponseTimeMs : ℚ) ∧
        (RunBenchmark env req).summary.grpcVsJsonrpcSpeedup ≠ 0) ∧
    (¬ (0 < (RunBenchmark env req).accountJsonrpc.avgResponseTimeMs ∧
        0 < (RunBenchmark env req).accountGrpc.avgResponseTimeMs) →
      (RunBenchmark env req).summary.grpcVsJsonrpcSpeedup = 0 ∧
        (RunBenchmark env req).summary.conclusion = "") := by
  constructor
  · intro h
    rw [runBenchmark_summary]
    unfold computeSummary
    rw [if_pos h]
    refine ⟨rfl, ?_⟩
    show ((RunBenchmark env req).accountJsonrpc.avgResponseTimeMs : ℚ) /
      ((RunBenchmark env req).accountGrpc.avgResponseTimeMs : ℚ) ≠ 0
    exact div_ne_zero (Nat.cast_ne_zero.mpr (Nat.pos_iff_ne_zero.mp h.1))
      (Nat.cast_ne_zero.mpr (Nat.pos_iff_ne_zero.mp h.2))
  · intro h
    rw [runBenchmark_summary]
    unfold computeSummary
    rw [if_neg h]
    exact ⟨rfl, rfl⟩

/-- Witness for C4: an empty request runs no sampler, both averages are 0,
so the speedup stays 0 and the conclusion stays empty. -/
theorem c4_speedup_guard_witness :
    (RunBenchmark
        ⟨fun _ => true, fun _ => true, fun _ _ => none, fun _ _ => 0,
          fun _ _ => false, fun _ _ => 0, fun _ _ => none, fun _ _ => 0,
          fun _ _ => false, fun _ _ => 0, fun _ _ => false, fun _ _ => 0,
          fun _ _ => false, fun _ _ => 0, 0⟩
        ⟨[], [], [], 1, true, true⟩).summary.grpcVsJsonrpcSpeedup = 0 ∧
      (RunBenchmark
        ⟨fun _ => true, fun _ => true, fun _ _ => none, fun _ _ => 0,
          fun _ _ => false, fun _ _ => 0, fun _ _ => none, fun _ _ => 0,
          fun _ _ => false, fun _ _ => 0, fun _ _ => false, fun _ _ => 0,
          fun _ _ => false, fun _ _ => 0, 0⟩
        ⟨[], [], [], 1, true, true⟩).summary.conclusion = "" :=
  (c4_speedup_guard
    ⟨fun _ => true, fun _ => true, fun _ _ => none, fun _ _ => 0,
      fun _ _ => false, fun _ _ => 0, fun _ _ => none, fun _ _ => 0,
      fun _ _ => false, fun _ _ => 0, fun _ _ => false, fun _ _ => 0,
      fun _ _ => false, fun _ _ => 0, 0⟩
    ⟨[], [], [], 1, true, true⟩).2 (by decide)

/-- C5: when computed, the speedup equals the account-pair JSON-RPC average
divided by the account-pair gRPC average (no transaction or block average
enters it), and the conclusion uses the "gRPC is <r>x faster" phrasing when
the speedup exceeds 1, else the inverted phrasing with 1/r. -/
theorem c5_speedup_value_and_conclusion (env : BenchEnv)
    (req : BenchmarkRequest)
    (h : 0 < (RunBenchmark env req).accountJsonrpc.avgResponseTimeMs ∧
      0 < (RunBenchmark env req).accountGrpc.avgResponseTimeMs) :
    (RunBenchmark env req).summary.grpcVsJsonrpcSpeedup =
        ((RunBenchmark env req).accountJsonrpc.avgResponseTimeMs : ℚ) /
          ((RunBenchmark env req).accountGrpc.avgResponseTimeMs : ℚ) ∧
      (RunBenchmark env req).summary.conclusion =
        (if 1 < ((RunBenchmark env req).accountJsonrpc.avgResponseTimeMs : ℚ) /
            ((RunBenchmark env req).accountGrpc.avgResponseTimeMs : ℚ) then
          "gRPC is " ++
            formatFixed2
              (((RunBenchmark env req).accountJsonrpc.avgResponseTimeMs : ℚ) /
                ((RunBenchmark env req).accountGrpc.avgResponseTimeMs : ℚ)) ++
            "x faster than JSON-RPC for Solana operations"
        else
          "JSON-RPC is " ++
            formatFixed2
              (1 / (((RunBenchmark env req).accountJsonrpc.avgResponseTimeMs : ℚ) /
                ((RunBenchmark env req).accountGrpc.avgResponseTimeMs : ℚ))) ++
            "x faster than gRPC for Solana operations") := by
  rw [runBenchmark_summary]
  unfold computeSummary
  rw [if_pos h]
  exact ⟨rfl, rfl⟩

/-- Concrete environment of the spec's five-iteration scenario: one account
target, both transports, gRPC latencies 10, 12, 11, 9, 10 ms and JSON-RPC
latencies 50, 48, 52, 51, 49 ms, every call succeeding. -/
def scenarioEnv : BenchEnv :=
  { parseAccount := fun _ => true
    parseSignature := fun _ => true
    accountGrpcRpc := fun _ _ =>
      some { data := [], owner := "", lamports := 0, executable := false, rentEpoch := 0 }
    accountGrpcElapsed := fun i _ => [10, 12, 11, 9, 10].getD i 0
    accountJsonOk := fun _ _ => true
    accountJsonElapsed := fun i _ => [50, 48, 52, 51, 49].getD i 0
    txGrpcRpc := fun _ _ => none
    txGrpcElapsed := fun _ _ => 0
    txJsonOk := fun _ _ => false
    txJsonElapsed := fun _ _ => 0
    blockGrpcOk := fun _ _ => false
    blockGrpcElapsed := fun _ _ => 0
    blockJsonOk := fun _ _ => false
    blockJsonElapsed := fun _ _ => 0
    totalElapsedMs := 0 }

/-- Request of the spec's five-iteration scenario. -/
def scenarioReq : BenchmarkRequest :=
  { testAccounts := ["acct"]
    testSignatures := []
    testSlots := []
    iterations := 5
    runGrpcTests := true
    runJsonrpcTests := true }

/-- Witness for C5: on the five-iteration scenario both averages are
positive, the speedup is 50/10 and the conclusion takes the "gRPC is
... faster" branch. -/
theorem c5_speedup_value_and_conclusion_witness :
    (RunBenchmark scenarioEnv scenarioReq).summary.grpcVsJsonrpcSpeedup =
        ((RunBenchmark scenarioEnv scenarioReq).accountJsonrpc.avgResponseTimeMs : ℚ) /
          ((RunBenchmark scenarioEnv scenarioReq).accountGrpc.avgResponseTimeMs : ℚ) ∧
      (RunBenchmark scenarioEnv scenarioReq).summary.conclusion =
        (if 1 < ((RunBenchmark scenarioEnv scenarioReq).accountJsonrpc.avgResponseTimeMs : ℚ) /
            ((RunBenchmark scenarioEnv scenarioReq).accountGrpc.avgResponseTimeMs : ℚ) then
          "gRPC is " ++
            formatFixed2
              (((RunBenchmark scenarioEnv scenarioReq).accountJsonrpc.avgResponseTimeMs : ℚ) /
                ((RunBenchmark scenarioEnv scenarioReq).accountGrpc.avgResponseTimeMs : ℚ)) ++
            "x faster than JSON-RPC for Solana operations"
        else
          "JSON-RPC is " ++
            formatFixed2
              (1 / (((RunBenchmark scenarioEnv scenarioReq).accountJsonrpc.avgResponseTimeMs : ℚ) /
                ((RunBenchmark scenarioEnv scenarioReq).accountGrpc.avgResponseTimeMs : ℚ))) ++
            "x faster than gRPC for Solana operations") :=
  c5_speedup_value_and_conclusion scenarioEnv scenarioReq ⟨by decide, by decide⟩

/-- C6: a {resource kind, transport} pair's sampler runs exactly when the
pair's target list is non-empty and its transport flag is set; every
non-applicable pair's ResourceBenchmark is returned at its all-zero
default. -/
theorem c6_pair_applicability (env : BenchEnv) (req : BenchmarkRequest) :
    (RunBenchmark env req).accountGrpc =
        (if 0 < req.testAccounts.length ∧ req.runGrpcTests = true then
          runAccountGrpcBenchmark env.parseAccount env.accountGrpcRpc
            env.accountGrpcElapsed req.iterations req.testAccounts {}
        else ⟨0, 0, 0, 0, 0⟩) ∧
      (RunBenchmark env req).accountJsonrpc =
        (if 0 < req.testAccounts.length ∧ req.runJsonrpcTests = true then
          runAccountJsonRpcBenchmark env.parseAccount env.accountJsonOk
            env.accountJsonElapsed req.iterations req.testAccounts {}
        else ⟨0, 0, 0, 0, 0⟩) ∧
      (RunBenchmark env req).transactionGrpc =
        (if 0 < req.testSignatures.length ∧ req.runGrpcTests = true then
          runTransactionGrpcBenchmark env.parseSignature env.txGrpcRpc
            env.txGrpcElapsed req.iterations req.testSignatures {}
        else ⟨0, 0, 0, 0, 0⟩) ∧
      (RunBenchmark env req).transactionJsonrpc =
        (if 0 < req.testSignatures.length ∧ req.runJsonrpcTests = true then
          runTransactionJsonRpcBenchmark env.parseSignature env.txJsonOk
            env.txJsonElapsed req.iterations req.testSignatures {}
        else ⟨0, 0, 0, 0, 0⟩) ∧
      (RunBenchmark env req).blockGrpc =
        (if 0 < req.testSlots.length ∧ req.runGrpcTests = true then
          runBlockGrpcBenchmark env.blockGrpcOk env.blockGrpcElapsed
            req.iterations req.testSlots {}
        else ⟨0, 0, 0, 0, 0⟩) ∧
      (RunBenchmark env req).blockJsonrpc =
        (if 0 < req.testSlots.length ∧ req.runJsonrpcTests = true then
          runBlockJsonRpcBenchmark env.blockJsonOk env.blockJsonElapsed
            req.iterations req.testSlots {}
        else ⟨0, 0, 0, 0, 0⟩) :=
  ⟨rfl, rfl, rfl, rfl, rfl, rfl⟩

/-- C8: on the spec's five-iteration scenario the gRPC account average is
10 ms, the JSON-RPC account average is 50 ms, the speedup is 5, and the
conclusion says gRPC is 5.00x faster. -/
theorem c8_scenario :
    (RunBenchmark scenarioEnv scenarioReq).accountGrpc.avgResponseTimeMs = 10 ∧
      (RunBenchmark scenarioEnv scenarioReq).accountJsonrpc.avgResponseTimeMs = 50 ∧
      (RunBenchmark scenarioEnv scenarioReq).summary.grpcVsJsonrpcSpeedup = 5 ∧
      (RunBenchmark scenarioEnv scenarioReq).summary.conclusion =
        "gRPC is 5.00x faster than JSON-RPC for Solana operations" := by
  have hg : (RunBenchmark scenarioEnv scenarioReq).accountGrpc.avgResponseTimeMs = 10 := by
    decide
  have hj : (RunBenchmark scenarioEnv scenarioReq).accountJsonrpc.avgResponseTimeMs = 50 := by
    decide
  have hcond : 0 < (RunBenchmark scenarioEnv scenarioReq).accountJsonrpc.avgResponseTimeMs ∧
      0 < (RunBenchmark scenarioEnv scenarioReq).accountGrpc.avgResponseTimeMs := by
    rw [hj, hg]
    exact ⟨by norm_num, by norm_num⟩
  have h5 : ((50 : ℕ) : ℚ) / ((10 : ℕ) : ℚ) = 5 := by norm_num
  have hf : formatFixed2 (5 : ℚ) = "5.00" := by decide
  refine ⟨hg, hj, ?_, ?_⟩
  · rw [runBenchmark_summary]
    unfold computeSummary
    rw [if_pos hcond]
    show ((RunBenchmark scenarioEnv scenarioReq).accountJsonrpc.avgResponseTimeMs : ℚ) /
      ((RunBenchmark scenarioEnv scenarioReq).accountGrpc.avgResponseTimeMs : ℚ) = 5
    rw [hj, hg]
    exact h5
  · rw [runBenchmark_summary]
    unfold computeSummary
    rw [if_pos hcond]
    show (if 1 < ((RunBenchmark scenarioEnv scenarioReq).accountJsonrpc.avgResponseTimeMs : ℚ) /
          ((RunBenchmark scenarioEnv scenarioReq).accountGrpc.avgResponseTimeMs : ℚ) then
        "gRPC is " ++
          formatFixed2
            (((RunBenchmark scenarioEnv scenarioReq).accountJsonrpc.avgResponseTimeMs : ℚ) /
              ((RunBenchmark scenarioEnv scenarioReq).accountGrpc.avgResponseTimeMs : ℚ)) ++
          "x faster than JSON-RPC for Solana operations"
      else
        "JSON-RPC is " ++
          formatFixed2
            (1 / (((RunBenchmark scenarioEnv scenarioReq).accountJsonrpc.avgResponseTimeMs : ℚ) /
              ((RunBenchmark scenarioEnv scenarioReq).accountGrpc.avgResponseTimeMs : ℚ))) ++
          "x faster than gRPC for Solana operations") =
      "gRPC is 5.00x faster than JSON-RPC for Solana operations"
    rw [hj, hg, h5, if_pos (by norm_num : (1 : ℚ) < 5), hf]
    rfl

lemma streamLoop_all_ok (sendOk : Nat → Bool) (mk : Nat → α)
    (hok : ∀ i, sendOk i = true) :
    ∀ n i, streamLoop sendOk mk i n =
      ((List.range n).map fun j => mk (i + j), none) := by
  intro n
  induction n with
  | zero => intro i; rfl
  | succ n ih =>
      intro i
      have harith : ∀ x : Nat, i + 1 + x = i + (x + 1) := by intro x; omega
      simp only [streamLoop, hok i, if_true, ih (i + 1),
        List.range_succ_eq_map, List.map_cons, List.map_map, Function.comp,
        Nat.add_zero, harith]
      simp only [Function.comp_def, Nat.succ_eq_add_one]

/-- C9: for every request, `StreamTransactions` emits exactly the ten
synthetic updates with signatures "simulated_signature_i", slots
100000 + i and a true success flag, and `StreamBlocks` emits exactly ten
updates with slots 100000 through 100009; when every send is accepted both
streams terminate without error, and no field depends on the request. -/
theorem c9_streams_simulated (sendOk : Nat → Bool) (now : Nat → Nat)
    (reqT : TransactionStreamRequest) (reqB : BlockStreamRequest)
    (hok : ∀ i, sendOk i = true) :
    (StreamTransactions sendOk now reqT).1 =
        ((List.range 10).map fun i =>
          { signature := "simulated_signature_" ++ toString i
            slot := 100000 + i
            transaction := "simulated_transaction_data"
            success := true
            timestamp := now i % U64 : TransactionUpdate}) ∧
      (StreamTransactions sendOk now reqT).2 = none ∧
      ((StreamBlocks sendOk now reqB).1).map BlockUpdate.slot =
        [100000, 100001, 100002, 100003, 100004,
          100005, 100006, 100007, 100008, 100009] ∧
      (StreamBlocks sendOk now reqB).2 = none := by
  have hT := streamLoop_all_ok sendOk
    (fun i =>
      ({ signature := "simulated_signature_" ++ toString i
         slot := 100000 + i
         transaction := "simulated_transaction_data"
         success := true
         timestamp := now i % U64 } : TransactionUpdate)) hok 10 0
  have hB := streamLoop_all_ok sendOk
    (fun i =>
      ({ slot := 100000 + i
         blockhash := "simulated_blockhash_" ++ toString i
         previousBlockhash := "simulated_previous_blockhash_" ++ toString ((i : Int) - 1)
         parentSlot := 100000 + i - 1
         timestamp := now i % U64 } : BlockUpdate)) hok 10 0
  refine ⟨?_, ?_, ?_, ?_⟩
  · show (streamLoop sendOk _ 0 10).1 = _
    rw [hT]
    simp
  · show (streamLoop sendOk _ 0 10).2 = none
    rw [hT]
  · show ((streamLoop sendOk _ 0 10).1).map BlockUpdate.slot = _
    rw [hB]
    simp [List.map_map]
    rfl
  · show (streamLoop sendOk _ 0 10).2 = none
    rw [hB]

/-- Witness for C9: with every send accepted and a constant clock, both
streams deliver their synthetic updates and finish without error. -/
theorem c9_streams_simulated_witness :
    (StreamTransactions (fun _ => true) (fun _ => 0) ⟨[], false, "finalized"⟩).2 =
        none ∧
      ((StreamBlocks (fun _ => true) (fun _ => 0) ⟨"finalized"⟩).1).map
          BlockUpdate.slot =
        [100000, 100001, 100002, 100003, 100004,
          100005, 100006, 100007, 100008, 100009] :=
  ⟨(c9_streams_simulated (fun _ => true) (fun _ => 0) ⟨[], false, "finalized"⟩
      ⟨"finalized"⟩ fun _ => rfl).2.1,
    (c9_streams_simulated (fun _ => true) (fun _ => 0) ⟨[], false, "finalized"⟩
      ⟨"finalized"⟩ fun _ => rfl).2.2.1⟩

/-- C10: an identifier that fails base58 parsing makes `GetAccountInfo`
(for the pubkey) and `GetTransaction` (for the signature) return an
InvalidArgument error without any blockchain RPC call, and on success
`GetAccountInfo` echoes the request's pubkey string unchanged. -/
theorem c10_invalid_identifier_rejected (parse : String → Bool)
    (rpcA : Option AccountValue) (elapsedA : Nat) (reqA : AccountInfoRequest)
    (parseSig : String → Bool) (rpcT : Option TxValue) (elapsedT : Nat)
    (reqT : TransactionRequest) :
    (parse reqA.pubkey = false →
      GetAccountInfo parse rpcA elapsedA reqA =
        (.error .invalidArgument, false)) ∧
      (parseSig reqT.signature = false →
        GetTransaction parseSig rpcT elapsedT reqT =
          (.error .invalidArgument, false)) ∧
      (∀ resp, (GetAccountInfo parse rpcA elapsedA reqA).1 = .ok resp →
        resp.pubkey = reqA.pubkey) := by
  refine ⟨?_, ?_, ?_⟩
  · intro h
    simp [GetAccountInfo, h]
  · intro h
    simp [GetTransaction, h]
  · intro resp h
    by_cases hp : parse reqA.pubkey
    · cases hv : rpcA with
      | none => simp [GetAccountInfo, hp, hv] at h
      | some v =>
          simp [GetAccountInfo, hp, hv] at h
          rw [← h]
    · simp [GetAccountInfo, hp] at h

/-- Witness for C10: a parser that rejects everything yields the
InvalidArgument error with no call made, for both lookups. -/
theorem c10_invalid_identifier_rejected_witness :
    GetAccountInfo (fun _ => false) none 0
        ⟨"pk", "finalized", true⟩ = (.error .invalidArgument, false) ∧
      GetTransaction (fun _ => false) none 0
        ⟨"sig", "finalized"⟩ = (.error .invalidArgument, false) :=
  ⟨(c10_invalid_identifier_rejected (fun _ => false) none 0
      ⟨"pk", "finalized", true⟩ (fun _ => false) none 0
      ⟨"sig", "finalized"⟩).1 rfl,
    (c10_invalid_identifier_rejected (fun _ => false) none 0
      ⟨"pk", "finalized", true⟩ (fun _ => false) none 0
      ⟨"sig", "finalized"⟩).2.1 rfl⟩

end SolanaGrpcShowcase
